import Mathlib

/-!
# Verification of the IoTProject EV-charging pipeline

Shallow embedding of the Python sources of `mleinad/IoTProject`:

* `Communication/mqtt_processor.py` — the MQTT subscriber that keeps
  in-memory statistics and persists rows to the `ev_charging_data` table;
* `Communication/mqtt_publisher.py` — the MQTT publisher that replays rows
  of a CSV dataset as JSON messages;
* `Database/queries.py` — SQL helper functions built on `execute_query`;
* `Database/create_tables.py` — creation of the normalized schema.

Conventions of the embedding:

* JSON / Python values that flow through the pipeline are modelled by
  `JVal` (strings and numbers); Python floats are modelled by exact
  rationals `ℚ`, so float rounding is out of scope.
* Python dicts holding JSON payloads are association lists
  (`Payload := List (String × JVal)`) looked up with `pget`.
* Exceptions are modelled by `Option`/success flags: a Python function that
  can raise partway through mutation returns the partially-updated state
  together with a `Bool` success flag.
* The external MySQL database visible to the processor is modelled inside
  `ProcState` by the row list `table` plus the connection flag `dbConn`;
  outcomes of fallible database calls (INSERT failing, reconnection
  succeeding) are supplied by a `DBFault` environment, since they depend on
  the outside world.
-/

/-- A JSON value as it reaches the processor: a string or a number.
Python floats are modelled as exact rationals. -/
inductive JVal where
  | s (v : String)
  | n (v : ℚ)
deriving DecidableEq, Repr

/-- A decoded JSON object (Python dict): an association list. -/
abbrev Payload : Type := List (String × JVal)

/-- Dict lookup, `payload[k]` / `payload.get(k)`: first binding wins. -/
def pget (p : Payload) (k : String) : Option JVal :=
  match p with
  | [] => none
  | (k₀, v) :: rest => if k = k₀ then some v else pget rest k

/-- Dict lookup with default, `payload.get(k, d)`. -/
def pgetD (p : Payload) (k : String) (d : JVal) : JVal :=
  (pget p k).getD d

/-- `session_stats[key] += payload.get(k, 0)` (mqtt_processor.py lines
146–147): adding a JSON value to a running numeric total. Returns `none`
when the value is a string, where Python raises `TypeError` mid-update. -/
def jAdd (acc : ℚ) (v : Option JVal) : Option ℚ :=
  match v with
  | none => some acc
  | some (.n q) => some (acc + q)
  | some (.s _) => none

/-- Numeric view of a field used to state sums: the value of `p[k]` when it
is a number, else 0 (missing fields count as 0). -/
def numField (p : Payload) (k : String) : ℚ :=
  match pget p k with
  | some (.n q) => q
  | _ => 0

/-- A row of the `ev_charging_data` table as built by `save_to_database`
(mqtt_processor.py lines 187–202): the 14 values of the parameterized
INSERT, in source order. -/
structure DBRow where
  vehicle_model : JVal
  battery_capacity_kwh : JVal
  charging_station_id : JVal
  energy_consumed_kwh : JVal
  charging_duration_hours : JVal
  charging_rate_kw : JVal
  charging_cost_eur : JVal
  time_of_day : JVal
  day_of_week : JVal
  state_of_charge_start_pct : JVal
  state_of_charge_end_pct : JVal
  distance_driven_km : JVal
  temperature_c : JVal
  vehicle_age_years : JVal
deriving DecidableEq, Repr

/-- The values tuple of the INSERT statement (mqtt_processor.py 187–202). -/
def mkRow (p : Payload) : DBRow where
  vehicle_model := pgetD p "vehicle_model" (.s "Unknown")
  battery_capacity_kwh := pgetD p "battery_capacity_kwh" (.n 0)
  charging_station_id := pgetD p "station_id" (.s "Unknown")
  energy_consumed_kwh := pgetD p "energy_consumed_kwh" (.n 0)
  charging_duration_hours := pgetD p "charging_duration_hours" (.n 0)
  charging_rate_kw := pgetD p "charging_rate_kw" (.n 0)
  charging_cost_eur := pgetD p "charging_cost_eur" (.n 0)
  time_of_day := pgetD p "time_of_day" (.s "Unknown")
  day_of_week := pgetD p "day_of_week" (.s "Unknown")
  state_of_charge_start_pct := pgetD p "state_of_charge_start_pct" (.n 0)
  state_of_charge_end_pct := pgetD p "state_of_charge_end_pct" (.n 0)
  distance_driven_km := pgetD p "distance_driven_km" (.n 0)
  temperature_c := pgetD p "temperature_c" (.n 0)
  vehicle_age_years := pgetD p "vehicle_age_years" (.n 0)

/-- Kinds of MySQL errors reaching `save_to_database`'s except-branch:
either the message contains "MySQL Connection not available" or not
(mqtt_processor.py line 211). -/
inductive DBErr where
  | connLost
  | other
deriving DecidableEq, Repr

/-- Environment describing the outside-world outcomes of one
`save_to_database` call: whether `cursor.execute(INSERT …)` raises (and
which kind of error), and — should `setup_database` be re-run — whether
`mysql.connector.connect` and the `TRUNCATE` of `clear_old_data` succeed. -/
structure DBFault where
  fault : Option DBErr
  connectOk : Bool
  truncateOk : Bool
deriving DecidableEq, Repr

/-- A fault-free database environment. -/
def noFault : DBFault := ⟨none, true, true⟩

/-- The full state of the processor: the module-level in-memory stores
(mqtt_processor.py lines 13–23) plus the database as the processor can
affect it.

* `buffer` is `charging_sessions_buffer = deque(maxlen=1000)`;
* the `total_*`, `active_*`, `sessions_by_*` and `recent_sessions` fields
  are the entries of the `session_stats` dict (sets and dicts are
  association lists);
* `dbConn` is whether `self.db_connection`/`self.db_cursor` are set;
* `table` is the contents of the external `ev_charging_data` table;
* `connectAttempts` counts the calls to `mysql.connector.connect` made by
  `setup_database`, to reason about reconnection behaviour. -/
structure ProcState where
  buffer : List Payload
  total_sessions : ℕ
  total_energy_kwh : ℚ
  total_cost_eur : ℚ
  active_users : List JVal
  active_stations : List JVal
  sessions_by_time_of_day : List (JVal × ℕ)
  sessions_by_day : List (JVal × ℕ)
  recent_sessions : List Payload
  dbConn : Bool
  table : List DBRow
  connectAttempts : ℕ
deriving DecidableEq, Repr

/-- Set insertion, `set.add(v)`. -/
def setAdd (s : List JVal) (v : JVal) : List JVal :=
  if v ∈ s then s else s ++ [v]

/-- Dict membership, `k in d`. -/
def dictMem (d : List (JVal × ℕ)) (k : JVal) : Bool :=
  d.any (fun kv => kv.1 = k)

/-- `d[k] = d.get(k, 0) + 1` on an association-list dict: update in place
if the key is present, else append the new binding. -/
def dictBump (d : List (JVal × ℕ)) (k : JVal) : List (JVal × ℕ) :=
  match d with
  | [] => [(k, 1)]
  | (k₀, v) :: rest =>
    if k₀ = k then (k₀, v + 1) :: rest else (k₀, v) :: dictBump rest k

/-- `charging_sessions_buffer.append(p)` on a `deque(maxlen=1000)`:
appending to a full deque discards the oldest element. -/
def pushBuffer (b : List Payload) (p : Payload) : List Payload :=
  let b := b ++ [p]
  if 1000 < b.length then b.tail else b

/-- Lines 161–163: append to `recent_sessions`, then `pop(0)` while the
length exceeds 100. -/
def pushRecent (r : List Payload) (p : Payload) : List Payload :=
  let r := r ++ [p]
  if 100 < r.length then r.tail else r

/-- `MQTTProcessor.process_charging_session` (mqtt_processor.py 137–168).
Statements run in source order; a step that raises (adding a string to a
numeric total, or a `KeyError` on `user_id`/`station_id`) stops execution
there, leaving the earlier mutations in place — the returned flag is
`false` exactly when an exception escaped. -/
def process_charging_session (st : ProcState) (p : Payload) : ProcState × Bool :=
  -- line 142: charging_sessions_buffer.append(session_data)
  let st := { st with buffer := pushBuffer st.buffer p }
  -- line 145: session_stats["total_sessions"] += 1
  let st := { st with total_sessions := st.total_sessions + 1 }
  -- line 146: += session_data.get("energy_consumed_kwh", 0)
  match jAdd st.total_energy_kwh (pget p "energy_consumed_kwh") with
  | none => (st, false)
  | some e =>
  let st := { st with total_energy_kwh := e }
  -- line 147: += session_data.get("charging_cost_eur", 0)
  match jAdd st.total_cost_eur (pget p "charging_cost_eur") with
  | none => (st, false)
  | some c =>
  let st := { st with total_cost_eur := c }
  -- line 148: active_users.add(session_data["user_id"])
  match pget p "user_id" with
  | none => (st, false)
  | some u =>
  let st := { st with active_users := setAdd st.active_users u }
  -- line 149: active_stations.add(session_data["station_id"])
  match pget p "station_id" with
  | none => (st, false)
  | some sid =>
  let st := { st with active_stations := setAdd st.active_stations sid }
  -- lines 152–154: bump sessions_by_time_of_day when the key exists
  let tod := pgetD p "time_of_day" (.s "Unknown")
  let st :=
    if dictMem st.sessions_by_time_of_day tod then
      { st with sessions_by_time_of_day := dictBump st.sessions_by_time_of_day tod }
    else st
  -- lines 157–158: sessions_by_day[day] = get(day, 0) + 1
  let day := pgetD p "day_of_week" (.s "Unknown")
  let st := { st with sessions_by_day := dictBump st.sessions_by_day day }
  -- lines 161–163: recent_sessions bounded at 100
  let st := { st with recent_sessions := pushRecent st.recent_sessions p }
  (st, true)

/-- `MQTTProcessor.setup_database` (mqtt_processor.py 39–61): attempt a
fresh `mysql.connector.connect`; on success run `clear_old_data`
(`TRUNCATE TABLE ev_charging_data`, itself allowed to fail, lines 63–70)
and `ensure_tables_exist` (`CREATE TABLE IF NOT EXISTS`, which never
changes existing rows); on failure set `db_connection = None`. -/
def setup_database (st : ProcState) (connectOk truncateOk : Bool) : ProcState :=
  let st := { st with connectAttempts := st.connectAttempts + 1 }
  if connectOk then
    let st := { st with dbConn := true }
    if truncateOk then { st with table := [] } else st
  else
    { st with dbConn := false }

/-- `MQTTProcessor.save_to_database` (mqtt_processor.py 170–212): return
immediately when no connection is held; otherwise run the parameterized
INSERT. When the INSERT raises, the row is not stored, and when the error
message contains "MySQL Connection not available" the processor calls
`setup_database` again (lines 208–212). -/
def save_to_database (st : ProcState) (p : Payload) (f : DBFault) : ProcState :=
  if st.dbConn then
    match f.fault with
    | none => { st with table := st.table ++ [mkRow p] }
    | some e =>
      if e = .connLost then setup_database st f.connectOk f.truncateOk else st
  else st

/-- `MQTTProcessor.on_message` (mqtt_processor.py 115–129). The incoming
message is `none` when `json.loads` raises (invalid JSON). The f-string of
line 120 evaluates `payload['user_id']`, `payload['energy_consumed_kwh']`
(with format spec `:.2f`, which raises `ValueError` on a non-numeric
value) and `payload['station_id']`, raising `KeyError` on a missing key;
any exception is caught by the handler of line 128, leaving the state
unchanged. Otherwise `process_charging_session` runs, and when it
completes without raising, `save_to_database` runs. -/
def on_message (st : ProcState) (raw : Option Payload) (f : DBFault) : ProcState :=
  match raw with
  | none => st
  | some p =>
    match pget p "user_id", pget p "energy_consumed_kwh", pget p "station_id" with
    | some _, some (.n _), some _ =>
      let r := process_charging_session st p
      if r.2 then save_to_database r.1 p f else r.1
    | _, _, _ => st

/-- `MQTTProcessor.on_disconnect` (mqtt_processor.py 131–135): prints a
message; it initiates no reconnection itself (paho's network loop does any
MQTT reconnection). -/
def on_disconnect (st : ProcState) (_reason : ℤ) : ProcState := st

/-- The in-memory stores at module load (mqtt_processor.py 13–23),
together with a given initial database state. -/
def initState (dbConn : Bool) (table : List DBRow) : ProcState where
  buffer := []
  total_sessions := 0
  total_energy_kwh := 0
  total_cost_eur := 0
  active_users := []
  active_stations := []
  sessions_by_time_of_day :=
    [(.s "Morning", 0), (.s "Afternoon", 0), (.s "Evening", 0), (.s "Night", 0)]
  sessions_by_day := []
  recent_sessions := []
  dbConn := dbConn
  table := table
  connectAttempts := 0

/-- Run `on_message` over a sequence of (decoded message, database
environment) pairs. -/
def processMsgs (st : ProcState) : List (Option Payload × DBFault) → ProcState
  | [] => st
  | (raw, f) :: rest => processMsgs (on_message st raw f) rest

/-- A payload the claims call well-formed: the three mandatory keys are
present, `energy_consumed_kwh` is numeric, and `charging_cost_eur`, when
present, is numeric. -/
def wellFormed (p : Payload) : Prop :=
  (pget p "user_id").isSome ∧
  (∃ q : ℚ, pget p "energy_consumed_kwh" = some (.n q)) ∧
  (pget p "station_id").isSome ∧
  (∀ v, pget p "charging_cost_eur" = some v → ∃ q : ℚ, v = .n q)

instance (p : Payload) : Decidable (wellFormed p) := by
  unfold wellFormed
  have h₁ : Decidable (∃ q : ℚ, pget p "energy_consumed_kwh" = some (.n q)) := by
    cases h : pget p "energy_consumed_kwh" with
    | none => exact .isFalse (by simp)
    | some v =>
      cases v with
      | s w => exact .isFalse (by simp)
      | n q => exact .isTrue ⟨q, rfl⟩
  have h₂ : Decidable (∀ v, pget p "charging_cost_eur" = some v → ∃ q : ℚ, v = .n q) := by
    cases h : pget p "charging_cost_eur" with
    | none => exact .isTrue (by simp [h])
    | some v =>
      cases v with
      | s w => exact .isFalse (by simp [h])
      | n q => exact .isTrue (by simp [h])
  exact instDecidableAnd

/-!
## Publisher (`Communication/mqtt_publisher.py`)
-/

/-- A pandas cell as seen by the publisher: a string, a float (exact
rational here), or a missing value (`NaN`). -/
inductive Cell where
  | s (v : String)
  | n (v : ℚ)
  | nan
deriving DecidableEq, Repr

/-- A row of the CSV-loaded dataset: column name to cell. -/
abbrev Row : Type := List (String × Cell)

/-- `row.get(k)` on a pandas Series: `none` models Python `None`. -/
def rget (row : Row) (k : String) : Option Cell :=
  match row with
  | [] => none
  | (k₀, v) :: rest => if k = k₀ then some v else rget rest k

/-- `row.get(k, d)`. -/
def rgetD (row : Row) (k : String) (d : Cell) : Cell :=
  (rget row k).getD d

/-- Numeric value of a run of decimal digits. -/
def digitsToNat (cs : List Char) : ℕ :=
  cs.foldl (fun n c => 10 * n + (c.toNat - 48)) 0

/-- Model of Python `float(s)` on plain decimal literals: optional sign,
then digits with at most one dot (`"12"`, `"-3.5"`, `".5"`, `"7."`).
Literals Python also accepts (exponents, `"inf"`, `"nan"`, underscores,
surrounding whitespace) are modelled as failures; no claim in this
development depends on their values. -/
def pyFloat (s : String) : Option ℚ :=
  let cs := s.toList
  let signed : ℚ × List Char :=
    match cs with
    | '-' :: rest => (-1, rest)
    | '+' :: rest => (1, rest)
    | _ => (1, cs)
  let sign := signed.1
  let body := signed.2
  let intPart := body.takeWhile Char.isDigit
  let rest := body.dropWhile Char.isDigit
  match rest with
  | [] =>
    if intPart.isEmpty then none
    else some (sign * digitsToNat intPart)
  | '.' :: frac =>
    if frac.all Char.isDigit ∧ ¬(intPart.isEmpty ∧ frac.isEmpty) then
      some (sign * ((digitsToNat intPart : ℚ) + digitsToNat frac / 10 ^ frac.length))
    else none
  | _ => none

/-- `EVChargingPublisher.parse_value` (mqtt_publisher.py 95–103): return
the default on `pd.isna(val)` (covers `None` and `NaN`), on `''` and on
`'nan'`; else `float(str(val).replace(',', '.'))`, any `ValueError`
yielding the default. A float cell round-trips through `str` unchanged. -/
def parse_value (val : Option Cell) (default : ℚ) : ℚ :=
  match val with
  | none => default
  | some .nan => default
  | some (.n q) => q
  | some (.s str) =>
    if str = "" ∨ str = "nan" then default
    else
      match pyFloat (str.replace "," ".") with
      | some q => q
      | none => default

/-- Python `str(cell)`. The rendering of floats (`toString` on `ℚ` here)
differs in digits from CPython's `repr`, which no claim depends on. -/
def pyStr (c : Cell) : String :=
  match c with
  | .s v => v
  | .n q => toString q
  | .nan => "nan"

/-- Python `int(q)`: truncation toward zero. -/
def pyInt (q : ℚ) : ℤ :=
  if q < 0 then ⌈q⌉ else ⌊q⌋

/-- `f"{i:05d}"`: decimal rendering zero-padded to width 5. -/
def pad5 (i : ℕ) : String :=
  let s := toString i
  String.mk (List.replicate (5 - s.length) '0') ++ s

/-- `EVChargingPublisher.create_session_message` (mqtt_publisher.py
105–142): the dict built from CSV row `row` at loop index `i`;
`ts` is `datetime.now().strftime(…)` and `now` is `int(time.time())`,
both supplied by the environment. -/
def create_session_message (row : Row) (i : ℕ) (ts : String) (now : ℕ) : Payload :=
  [("timestamp", .s ts),
   ("session_id", .s ("SESSION_" ++ toString now ++ "_" ++ toString i)),
   ("user_id", .s (pyStr (rgetD row "User ID" (.s ("User_" ++ toString (i % 20 + 1)))))),
   ("station_id", .s (pyStr (rgetD row "Charging Station ID" (.s ("PT-EVS" ++ pad5 i))))),
   ("vehicle_model", .s (pyStr (rgetD row "Vehicle Model" (.s "Unknown")))),
   ("battery_capacity_kwh", .n (parse_value (rget row "Battery Capacity (kWh)") 0)),
   ("vehicle_age_years", .n (pyInt (parse_value (some (rgetD row "Vehicle Age (years)" (.n 0))) 0) : ℚ)),
   ("energy_consumed_kwh", .n (parse_value (rget row "Energy Consumed (kWh)") 0)),
   ("charging_duration_hours", .n (parse_value (rget row "Charging Duration (hours)") 0)),
   ("charging_cost_eur", .n (parse_value (rget row "Charging Cost (EUR)") 0)),
   ("charging_rate_kw", .n (parse_value (rget row "Charging Rate (kW)") 0)),
   ("time_of_day", .s (pyStr (rgetD row "Time of Day" (.s "Unknown")))),
   ("day_of_week", .s (pyStr (rgetD row "Day of Week" (.s "Unknown")))),
   ("state_of_charge_start_pct", .n (parse_value (rget row "State of Charge (Start %)") 0)),
   ("state_of_charge_end_pct", .n (parse_value (rget row "State of Charge (End %)") 0)),
   ("distance_driven_km", .n (parse_value (rget row "Distance Driven (since last charge) (km)") 0)),
   ("temperature_c", .n (parse_value (rget row "Temperature (C)") 0))]

/-- `EVChargingPublisher.publish_charging_session` (mqtt_publisher.py
144–157): `client.publish` is called exactly once on `json.dumps` of the
dict; the function returns `result.rc == 0`. `rc` is the library's return
code. -/
def publish_charging_session (_session_data : Payload) (rc : ℕ) : Bool :=
  rc == 0

/-- What happens in one iteration of the loop of `simulate_realtime_data`,
as decided by the environment: a `KeyboardInterrupt`, some other exception
raised inside the body (caught at line 197), or a normal pass in which
`dataset.sample` picks row `ridx`, the clock reads (`ts`, `now`), and
`client.publish` returns code `rc`. -/
inductive IterEvent where
  | kbint
  | err
  | ok (ridx : ℕ) (ts : String) (now : ℕ) (rc : ℕ)
deriving DecidableEq, Repr

/-- Observable outcome of `simulate_realtime_data`: the two counters of
lines 170–171, the number of loop-body entries, the number of
`time.sleep(interval_seconds)` calls, and the dicts handed to
`publish_charging_session` in order. -/
structure SimResult where
  published : ℕ
  failed : ℕ
  iterations : ℕ
  sleeps : ℕ
  pubs : List Payload
deriving DecidableEq, Repr

/-- The loop body of `EVChargingPublisher.simulate_realtime_data`
(mqtt_publisher.py 173–199), iterating over the remaining events with loop
index `i`. A `kbint` event breaks out of the loop; an `err` event (also an
out-of-range sample, as on an empty dataset) runs only the
`except Exception` branch incrementing `failed_count`; a normal pass
builds the message, publishes it, and sleeps. -/
def simLoop (ds : List Row) : List IterEvent → ℕ → SimResult → SimResult
  | [], _, acc => acc
  | e :: es, i, acc =>
    match e with
    | .kbint => acc
    | .err =>
      simLoop ds es (i + 1)
        { acc with failed := acc.failed + 1, iterations := acc.iterations + 1 }
    | .ok ridx ts now rc =>
      match ds.get? ridx with
      | none =>
        simLoop ds es (i + 1)
          { acc with failed := acc.failed + 1, iterations := acc.iterations + 1 }
      | some row =>
        let m := create_session_message row i ts now
        simLoop ds es (i + 1)
          { published := if publish_charging_session m rc then acc.published + 1 else acc.published,
            failed := if publish_charging_session m rc then acc.failed else acc.failed + 1,
            iterations := acc.iterations + 1,
            sleeps := acc.sleeps + 1,
            pubs := acc.pubs ++ [m] }

/-- `simulate_realtime_data` over dataset `ds`, with one event per loop
index; `num_sessions` is `events.length`. -/
def simulate_realtime_data (ds : List Row) (events : List IterEvent) : SimResult :=
  simLoop ds events 0 ⟨0, 0, 0, 0, []⟩

/-- Number of events that reach the publish-and-sleep path. -/
def countOk (ds : List Row) : List IterEvent → ℕ
  | [] => 0
  | .ok ridx _ _ _ :: es => (if (ds.get? ridx).isSome then 1 else 0) + countOk ds es
  | _ :: es => countOk ds es

/-!
## SQL helpers (`Database/queries.py`)

For the query helpers the observable of interest is the pair
(SQL text, parameter tuple) handed to `execute_query`. The SQL texts below
are the source's literals with whitespace normalized to single spaces.
An argument of `none` models Python `None`; `some ""` is also falsy under
`if user_id:` and takes the unfiltered branch.
-/

/-- Python truthiness of an optional string argument. -/
def strTruthy (v : Option String) : Bool :=
  match v with
  | some s => ¬s.isEmpty
  | none => false

/-- Shared SELECT prefix of `get_user_daily_usage` (queries.py 609–629). -/
def userDailyBase : String :=
  "SELECT user_id, DATE(charging_start_time) as date, COUNT(*) as sessions_that_day, ROUND(SUM(charging_cost_eur), 2) as daily_cost, ROUND(SUM(energy_consumed_kwh), 2) as daily_energy FROM ev_charging_data"

/-- `get_user_daily_usage(connection, user_id=None)` (queries.py 609–629):
the (query, params) pair passed to `execute_query`. -/
def get_user_daily_usage (user_id : Option String) : String × List String :=
  if strTruthy user_id then
    (userDailyBase ++ " WHERE user_id = %s" ++ " GROUP BY user_id, DATE(charging_start_time) ORDER BY date",
     [user_id.getD ""])
  else
    (userDailyBase ++ " GROUP BY user_id, DATE(charging_start_time) ORDER BY user_id, date", [])

/-- Shared SELECT prefix of `get_station_daily_usage` (queries.py 691–712). -/
def stationDailyBase : String :=
  "SELECT charging_station_id, DATE(charging_start_time) as date, COUNT(*) as sessions_that_day, COUNT(DISTINCT user_id) as unique_users, ROUND(SUM(charging_cost_eur), 2) as daily_revenue, ROUND(SUM(energy_consumed_kwh), 2) as daily_energy FROM ev_charging_data"

/-- `get_station_daily_usage(connection, station_id=None)` (queries.py
691–712). -/
def get_station_daily_usage (station_id : Option String) : String × List String :=
  if strTruthy station_id then
    (stationDailyBase ++ " WHERE charging_station_id = %s" ++ " GROUP BY charging_station_id, DATE(charging_start_time) ORDER BY date",
     [station_id.getD ""])
  else
    (stationDailyBase ++ " GROUP BY charging_station_id, DATE(charging_start_time) ORDER BY charging_station_id, date", [])

/-- Shared SELECT prefix of `get_stations_by_concelho` (queries.py
796–816). -/
def concelhoBase : String :=
  "SELECT distrito, concelho, COUNT(*) as total_stations, ROUND(AVG(potencia_maxima_kw), 2) as avg_power_kw, SUM(pontos_ligacao) as total_connection_points FROM ev_stations"

/-- `get_stations_by_concelho(connection, distrito=None)` (queries.py
796–816). -/
def get_stations_by_concelho (distrito : Option String) : String × List String :=
  if strTruthy distrito then
    (concelhoBase ++ " WHERE distrito = %s" ++ " GROUP BY distrito, concelho ORDER BY total_stations DESC",
     [distrito.getD ""])
  else
    (concelhoBase ++ " GROUP BY distrito, concelho ORDER BY total_stations DESC LIMIT 50", [])

/-- Shared SELECT prefix of `get_stations_by_freguesia` (queries.py
819–838). -/
def freguesiaBase : String :=
  "SELECT distrito, concelho, freguesia, COUNT(*) as total_stations, ROUND(AVG(potencia_maxima_kw), 2) as avg_power_kw FROM ev_stations"

/-- `get_stations_by_freguesia(connection, concelho=None)` (queries.py
819–838). -/
def get_stations_by_freguesia (concelho : Option String) : String × List String :=
  if strTruthy concelho then
    (freguesiaBase ++ " WHERE concelho = %s" ++ " GROUP BY distrito, concelho, freguesia ORDER BY total_stations DESC",
     [concelho.getD ""])
  else
    (freguesiaBase ++ " GROUP BY distrito, concelho, freguesia ORDER BY total_stations DESC LIMIT 50", [])

/-- The constant SQL text of `get_energy_by_station` (queries.py 239–257),
representative of the helpers whose only extra argument is a `limit`
passed as a `%s` parameter. -/
def energyByStationSQL : String :=
  "SELECT charging_station_id, COUNT(*) as sessions, ROUND(SUM(energy_consumed_kwh), 2) as total_energy_delivered_kwh, ROUND(AVG(energy_consumed_kwh), 2) as avg_energy_per_session, ROUND(AVG(charging_rate_kw), 2) as avg_charging_rate_kw FROM ev_charging_data WHERE energy_consumed_kwh IS NOT NULL GROUP BY charging_station_id ORDER BY total_energy_delivered_kwh DESC LIMIT %s"

/-- `get_energy_by_station(connection, limit=50)` (queries.py 239–257):
the (query, params) pair passed to `execute_query`. -/
def get_energy_by_station (limit : ℤ) : String × List ℤ :=
  (energyByStationSQL, [limit])

/-!
## `execute_query` (`Database/queries.py` 5–28, identical logic in
`scripts/Database/queries_fixed.py` 3–16)
-/

/-- A result row fetched by the cursor. -/
abbrev ResultRow : Type := List JVal

/-- Environment for one `execute_query` call: whether `connection.cursor()`
raises a connector error, whether `cursor.execute(query[, params])` raises
one, and the rows `cursor.fetchall()` returns after a successful execute.
The latter two are functions of the query text and of the optional
parameter tuple actually passed (`none` = the no-params call). -/
structure PyConnection where
  cursorErr : Option DBErr
  execErr : String → Option (List JVal) → Option DBErr
  fetchall : String → Option (List JVal) → List ResultRow

/-- The parameter tuple actually passed to `cursor.execute`: `if params:`
is falsy for `None` and for an empty tuple, in which case the one-argument
call `cursor.execute(query)` is made. -/
def effParams (params : Option (List JVal)) : Option (List JVal) :=
  match params with
  | some (x :: xs) => some (x :: xs)
  | _ => none

/-- `execute_query(connection, query, params=None)` (queries.py 5–28):
`if params:` chooses between `cursor.execute(query, params)` and
`cursor.execute(query)`; on success all rows are fetched and returned; a
`mysql.connector.Error` anywhere in the body is caught and `None` is
returned. -/
def execute_query (conn : PyConnection) (query : String) (params : Option (List JVal)) :
    Option (List ResultRow) :=
  match conn.cursorErr with
  | some _ => none
  | none =>
    match conn.execErr query (effParams params) with
    | some _ => none
    | none => some (conn.fetchall query (effParams params))

/-!
## `create_normalized_tables` (`Database/create_tables.py` 3–94)
-/

/-- What the claims observe about one CREATE TABLE statement: the table
name, that it is issued `IF NOT EXISTS`, and its foreign keys as
(column, referenced table) pairs. -/
structure TableDef where
  name : String
  ifNotExists : Bool
  foreignKeys : List (String × String)
deriving DecidableEq, Repr

/-- The `users` statement (create_tables.py 19–25). -/
def usersTable : TableDef := ⟨"users", true, []⟩

/-- The `charging_stations` statement (create_tables.py 29–37). -/
def chargingStationsTable : TableDef := ⟨"charging_stations", true, []⟩

/-- The `vehicles` statement (create_tables.py 41–52). -/
def vehiclesTable : TableDef := ⟨"vehicles", true, [("user_id", "users")]⟩

/-- The `charging_sessions` statement (create_tables.py 56–84). -/
def chargingSessionsTable : TableDef :=
  ⟨"charging_sessions", true,
   [("user_id", "users"), ("vehicle_id", "vehicles"), ("station_id", "charging_stations")]⟩

/-- Environment for one `create_normalized_tables` call: whether
`connection.cursor()`, each of the four `cursor.execute` statements and
`connection.commit()` raise a `mysql.connector.Error`. -/
structure CreateEnv where
  cursorOk : Bool
  execOk : TableDef → Bool
  commitOk : Bool

/-- Issue the statements in source order, stopping at the first failing
one (the raised `Error` jumps to the except-branch; the statements already
executed stay executed). Returns (executed statements, success). -/
def runCreates (env : CreateEnv) : List TableDef → List TableDef × Bool
  | [] => ([], true)
  | t :: ts =>
    if env.execOk t then
      let r := runCreates env ts
      (t :: r.1, r.2)
    else ([t], false)

/-- `create_normalized_tables(connection)` (create_tables.py 3–94):
the four CREATE TABLE IF NOT EXISTS statements in source order, then
`connection.commit()`; returns `True` iff no step raised. The second
component lists the CREATE statements actually issued. -/
def create_normalized_tables (env : CreateEnv) : Bool × List TableDef :=
  if env.cursorOk then
    let r := runCreates env [usersTable, chargingStationsTable, vehiclesTable, chargingSessionsTable]
    if r.2 then (env.commitOk, r.1) else (false, r.1)
  else (false, [])

/-!
## Derived definitions used to state the results
-/

/-- The update lines 152–154 apply to `sessions_by_time_of_day`. -/
def todUpd (d : List (JVal × ℕ)) (p : Payload) : List (JVal × ℕ) :=
  let tod := pgetD p "time_of_day" (.s "Unknown")
  if dictMem d tod then dictBump d tod else d

/-- The state reached by `process_charging_session` on a well-formed
payload, spelled out field by field. -/
def processedState (st : ProcState) (p : Payload) : ProcState :=
  { st with
    buffer := pushBuffer st.buffer p
    total_sessions := st.total_sessions + 1
    total_energy_kwh := st.total_energy_kwh + numField p "energy_consumed_kwh"
    total_cost_eur := st.total_cost_eur + numField p "charging_cost_eur"
    active_users := setAdd st.active_users ((pget p "user_id").getD (.s ""))
    active_stations := setAdd st.active_stations ((pget p "station_id").getD (.s ""))
    sessions_by_time_of_day := todUpd st.sessions_by_time_of_day p
    sessions_by_day := dictBump st.sessions_by_day (pgetD p "day_of_week" (.s "Unknown"))
    recent_sessions := pushRecent st.recent_sessions p }

/-- Invariant tying a processor state to the list `hist` of payloads
processed so far (most recent last): the running totals are sums over
`hist`, and the two buffers hold exactly the most recent 1000 resp. 100
elements of `hist`. -/
def ProcInv (hist : List Payload) (st : ProcState) : Prop :=
  st.total_sessions = hist.length ∧
  st.total_energy_kwh = (hist.map (fun p => numField p "energy_consumed_kwh")).sum ∧
  st.total_cost_eur = (hist.map (fun p => numField p "charging_cost_eur")).sum ∧
  st.buffer.length = min hist.length 1000 ∧
  st.buffer <:+ hist ∧
  st.recent_sessions.length = min hist.length 100 ∧
  st.recent_sessions <:+ hist

/-- The ten keys claim C7 requires in every published message. -/
def requiredKeys : List String :=
  ["timestamp", "session_id", "user_id", "station_id", "vehicle_model",
   "energy_consumed_kwh", "charging_duration_hours", "charging_cost_eur",
   "time_of_day", "day_of_week"]

/-- A valid-JSON payload containing the three mandatory keys whose
`energy_consumed_kwh` value is a (non-numeric) JSON string. -/
def badEnergyPayload : Payload :=
  [("user_id", .s "User_1"), ("energy_consumed_kwh", .s "abc"), ("station_id", .s "ST-1")]

/-- A well-formed concrete payload used by the witnesses. -/
def goodPayload : Payload :=
  [("user_id", .s "User_7"), ("energy_consumed_kwh", .n 12), ("station_id", .s "ST-9"),
   ("charging_cost_eur", .n 5), ("time_of_day", .s "Morning"), ("day_of_week", .s "Monday")]

/-- A connection on which every step of `execute_query` succeeds and the
cursor fetches one single-column row. -/
def okConn : PyConnection where
  cursorErr := none
  execErr := fun _ _ => none
  fetchall := fun _ _ => [[JVal.n 1]]

/-- An environment in which every step of `create_normalized_tables`
succeeds. -/
def allOkEnv : CreateEnv where
  cursorOk := true
  execOk := fun _ => true
  commitOk := true

/-- The four CREATE TABLE statements in source order. -/
def tableList : List TableDef :=
  [usersTable, chargingStationsTable, vehiclesTable, chargingSessionsTable]

/-!
## Lemmas about the processor
-/

/-- On a well-formed payload, `process_charging_session` completes without
raising and performs exactly the updates of `processedState`. -/
theorem process_charging_session_eq (st : ProcState) (p : Payload) (hw : wellFormed p) :
    process_charging_session st p = (processedState st p, true) := by
  obtain ⟨hu, ⟨qe, he⟩, hs, hc⟩ := hw
  obtain ⟨u, hu⟩ := Option.isSome_iff_exists.mp hu
  obtain ⟨sv, hs⟩ := Option.isSome_iff_exists.mp hs
  rcases hq : pget p "charging_cost_eur" with _ | v
  · unfold process_charging_session processedState todUpd
    rw [hu, he, hs, hq]
    simp only [jAdd]
    split <;> simp [numField, he, hq]
  · rcases v with w | qc
    · exact absurd (hc _ hq) (by simp)
    · unfold process_charging_session processedState todUpd
      rw [hu, he, hs, hq]
      simp only [jAdd]
      split <;> simp [numField, he, hq]

/-- `save_to_database` (and the `setup_database` it may trigger) never
touches the in-memory statistics. -/
theorem save_to_database_frame (st : ProcState) (p : Payload) (f : DBFault) :
    (save_to_database st p f).buffer = st.buffer ∧
    (save_to_database st p f).total_sessions = st.total_sessions ∧
    (save_to_database st p f).total_energy_kwh = st.total_energy_kwh ∧
    (save_to_database st p f).total_cost_eur = st.total_cost_eur ∧
    (save_to_database st p f).active_users = st.active_users ∧
    (save_to_database st p f).active_stations = st.active_stations ∧
    (save_to_database st p f).sessions_by_time_of_day = st.sessions_by_time_of_day ∧
    (save_to_database st p f).sessions_by_day = st.sessions_by_day ∧
    (save_to_database st p f).recent_sessions = st.recent_sessions := by
  rcases f with ⟨fault, cOk, tOk⟩
  rcases fault with _ | e
  · cases hdb : st.dbConn <;> simp [save_to_database, hdb]
  · rcases e <;> rcases cOk <;> rcases tOk <;> cases hdb : st.dbConn <;>
      simp [save_to_database, setup_database, hdb]

/-- On a well-formed message, `on_message` is `process_charging_session`
followed by `save_to_database`. -/
theorem on_message_eq (st : ProcState) (p : Payload) (f : DBFault) (hw : wellFormed p) :
    on_message st (some p) f = save_to_database (processedState st p) p f := by
  have hpe := process_charging_session_eq st p hw
  obtain ⟨hu', ⟨qe, he⟩, hs', _⟩ := hw
  obtain ⟨u, hu⟩ := Option.isSome_iff_exists.mp hu'
  obtain ⟨sv, hs⟩ := Option.isSome_iff_exists.mp hs'
  simp [on_message, hu, he, hs, hpe]

/-- An element is in the set after `set.add`. -/
theorem mem_setAdd (s : List JVal) (v : JVal) : v ∈ setAdd s v := by
  unfold setAdd
  split
  · assumption
  · simp

/-- Appending to the 1000-bounded deque keeps the length pinned to
`min (n+1) 1000` when it was `min n 1000`. -/
theorem pushBuffer_length (b : List Payload) (p : Payload) (n : ℕ)
    (h : b.length = min n 1000) : (pushBuffer b p).length = min (n + 1) 1000 := by
  unfold pushBuffer
  dsimp only
  split <;>
    (simp only [List.length_tail, List.length_append, List.length_cons,
      List.length_nil] at * ; omega)

/-- Appending to the 1000-bounded deque keeps it a suffix of the full
message history. -/
theorem pushBuffer_suffix (b : List Payload) (p : Payload) (l : List Payload)
    (h : b <:+ l) : pushBuffer b p <:+ l ++ [p] := by
  obtain ⟨t, rfl⟩ := h
  unfold pushBuffer
  dsimp only
  split
  · exact (List.tail_suffix _).trans ⟨t, by simp⟩
  · exact ⟨t, by simp⟩

/-- Appending to the 100-bounded recent list keeps the length pinned to
`min (n+1) 100`. -/
theorem pushRecent_length (r : List Payload) (p : Payload) (n : ℕ)
    (h : r.length = min n 100) : (pushRecent r p).length = min (n + 1) 100 := by
  unfold pushRecent
  dsimp only
  split <;>
    (simp only [List.length_tail, List.length_append, List.length_cons,
      List.length_nil] at * ; omega)

/-- Appending to the 100-bounded recent list keeps it a suffix of the full
message history. -/
theorem pushRecent_suffix (r : List Payload) (p : Payload) (l : List Payload)
    (h : r <:+ l) : pushRecent r p <:+ l ++ [p] := by
  obtain ⟨t, rfl⟩ := h
  unfold pushRecent
  dsimp only
  split
  · exact (List.tail_suffix _).trans ⟨t, by simp⟩
  · exact ⟨t, by simp⟩

/-- One well-formed message preserves the statistics invariant. -/
theorem ProcInv_step (hist : List Payload) (st : ProcState) (p : Payload) (f : DBFault)
    (hw : wellFormed p) (hinv : ProcInv hist st) :
    ProcInv (hist ++ [p]) (on_message st (some p) f) := by
  obtain ⟨h1, h2, h3, h4, h5, h6, h7⟩ := hinv
  rw [on_message_eq st p f hw]
  obtain ⟨hb, hts, hte, htc, hau, has, htod, hday, hrec⟩ :=
    save_to_database_frame (processedState st p) p f
  refine ⟨?_, ?_, ?_, ?_, ?_, ?_, ?_⟩
  · rw [hts]; simp [processedState, h1]
  · rw [hte]; simp [processedState, h2]
  · rw [htc]; simp [processedState, h3]
  · rw [hb]
    have := pushBuffer_length st.buffer p hist.length h4
    simpa [processedState] using this
  · rw [hb]
    have := pushBuffer_suffix st.buffer p hist h5
    simpa [processedState] using this
  · rw [hrec]
    have := pushRecent_length st.recent_sessions p hist.length h6
    simpa [processedState] using this
  · rw [hrec]
    have := pushRecent_suffix st.recent_sessions p hist h7
    simpa [processedState] using this

/-- The invariant holds at module load. -/
theorem ProcInv_init (d : Bool) (t : List DBRow) : ProcInv [] (initState d t) := by
  simp [ProcInv, initState]

/-- Running any list of well-formed messages preserves the invariant. -/
theorem ProcInv_run (msgs : List (Payload × DBFault)) :
    ∀ hist st, ProcInv hist st → (∀ m ∈ msgs, wellFormed m.1) →
      ProcInv (hist ++ msgs.map Prod.fst)
        (processMsgs st (msgs.map (fun m => (some m.1, m.2)))) := by
  induction msgs with
  | nil => intro hist st h _; simpa [processMsgs] using h
  | cons m rest ih =>
    intro hist st h hwf
    have hstep := ProcInv_step hist st m.1 m.2 (hwf m (by simp)) h
    have hrun := ih (hist ++ [m.1]) _ hstep (fun x hx => hwf x (by simp [hx]))
    simpa [processMsgs, List.append_assoc] using hrun

/-!
## Claim theorems
-/

/-- C2: after any sequence of well-formed messages, `total_sessions` is the
message count, `total_energy_kwh` and `total_cost_eur` are the sums of the
respective fields (missing fields counting as 0), and the buffers hold
exactly the most recent `min n 1000` resp. `min n 100` messages, as
suffixes of the processed sequence. -/
theorem c2_stats_invariants (msgs : List (Payload × DBFault)) (d : Bool) (t : List DBRow)
    (hw : ∀ m ∈ msgs, wellFormed m.1) (st : ProcState)
    (hst : st = processMsgs (initState d t) (msgs.map (fun m => (some m.1, m.2)))) :
    st.total_sessions = msgs.length ∧
    st.total_energy_kwh =
      ((msgs.map Prod.fst).map (fun p => numField p "energy_consumed_kwh")).sum ∧
    st.total_cost_eur =
      ((msgs.map Prod.fst).map (fun p => numField p "charging_cost_eur")).sum ∧
    st.buffer.length = min msgs.length 1000 ∧
    st.buffer <:+ msgs.map Prod.fst ∧
    st.recent_sessions.length = min msgs.length 100 ∧
    st.recent_sessions <:+ msgs.map Prod.fst := by
  subst hst
  have h := ProcInv_run msgs [] (initState d t) (ProcInv_init d t) hw
  simpa [ProcInv] using h

/-- Witness for C2 at one concrete well-formed message. -/
theorem c2_witness :
    (∀ m ∈ [(goodPayload, noFault)], wellFormed m.1) ∧
    (processMsgs (initState false []) [(some goodPayload, noFault)]).total_sessions = 1 ∧
    (processMsgs (initState false []) [(some goodPayload, noFault)]).total_energy_kwh = 12 := by
  have hwf : ∀ m ∈ [(goodPayload, noFault)], wellFormed m.1 := by decide
  have h := c2_stats_invariants [(goodPayload, noFault)] false [] hwf _ rfl
  refine ⟨hwf, by simpa using h.1, ?_⟩
  have h2 := h.2.1
  simp at h2
  rw [h2]
  decide

/-- C1 (counterexample): a valid-JSON payload containing all three keys
`user_id`, `energy_consumed_kwh` and `station_id` on which `on_message`
updates nothing and inserts nothing, although a database connection is
available: the string-valued `energy_consumed_kwh` makes the `:.2f`
format of line 120 raise `ValueError` before any processing. -/
theorem c1_counterexample :
    (pget badEnergyPayload "user_id").isSome = true ∧
    (pget badEnergyPayload "energy_consumed_kwh").isSome = true ∧
    (pget badEnergyPayload "station_id").isSome = true ∧
    (initState true []).dbConn = true ∧
    on_message (initState true []) (some badEnergyPayload) noFault = initState true [] ∧
    (on_message (initState true []) (some badEnergyPayload) noFault).total_sessions = 0 ∧
    (on_message (initState true []) (some badEnergyPayload) noFault).table = [] := by
  decide

/-- C1 (amended): on a well-formed payload (the three keys present,
`energy_consumed_kwh` numeric, `charging_cost_eur` numeric when present),
with a database connection available and the INSERT not failing,
`on_message` updates every statistic exactly once — including adding
`user_id` to `active_users` and `station_id` to `active_stations` — and
appends exactly one row to `ev_charging_data`, processing before saving. -/
theorem c1_amended (st : ProcState) (p : Payload) (f : DBFault)
    (hw : wellFormed p) (hdb : st.dbConn = true) (hf : f.fault = none) (st' : ProcState)
    (hst : st' = on_message st (some p) f) :
    st'.total_sessions = st.total_sessions + 1 ∧
    st'.total_energy_kwh = st.total_energy_kwh + numField p "energy_consumed_kwh" ∧
    st'.total_cost_eur = st.total_cost_eur + numField p "charging_cost_eur" ∧
    (∀ u, pget p "user_id" = some u → u ∈ st'.active_users) ∧
    (∀ sv, pget p "station_id" = some sv → sv ∈ st'.active_stations) ∧
    st'.buffer = pushBuffer st.buffer p ∧
    st'.recent_sessions = pushRecent st.recent_sessions p ∧
    st'.table = st.table ++ [mkRow p] := by
  subst hst
  rw [on_message_eq st p f hw]
  obtain ⟨hb, hts, hte, htc, hau, has, htod, hday, hrec⟩ :=
    save_to_database_frame (processedState st p) p f
  have hdb' : (processedState st p).dbConn = true := by simp [processedState, hdb]
  refine ⟨?_, ?_, ?_, ?_, ?_, ?_, ?_, ?_⟩
  · rw [hts]; simp [processedState]
  · rw [hte]; simp [processedState]
  · rw [htc]; simp [processedState]
  · intro u hu
    rw [hau]
    simpa [processedState, hu] using mem_setAdd st.active_users u
  · intro sv hsv
    rw [has]
    simpa [processedState, hsv] using mem_setAdd st.active_stations sv
  · rw [hb]; simp [processedState]
  · rw [hrec]; simp [processedState]
  · simp [save_to_database, hdb', hf, processedState, hdb]

/-- Witness for C1 (amended) at a concrete payload. -/
theorem c1_witness :
    wellFormed goodPayload ∧
    (on_message (initState true []) (some goodPayload) noFault).total_sessions = 1 ∧
    (on_message (initState true []) (some goodPayload) noFault).table = [mkRow goodPayload] := by
  have hwf : wellFormed goodPayload := by decide
  have h := c1_amended (initState true []) goodPayload noFault hwf rfl rfl _ rfl
  refine ⟨hwf, ?_, ?_⟩
  · have := h.1
    simpa [initState] using this
  · have := h.2.2.2.2.2.2.2
    simpa [initState] using this

/-- C3: when the INSERT of `save_to_database` fails with a "MySQL
Connection not available" error, `setup_database` is invoked again and —
its reconnection and TRUNCATE succeeding — `clear_old_data` empties
`ev_charging_data`: every previously persisted row is deleted and the row
whose insert failed is not re-inserted. -/
theorem c3_conn_lost_truncates (st : ProcState) (p : Payload) (f : DBFault)
    (hdb : st.dbConn = true) (hf : f.fault = some .connLost)
    (hc : f.connectOk = true) (ht : f.truncateOk = true) :
    (save_to_database st p f).connectAttempts = st.connectAttempts + 1 ∧
    (save_to_database st p f).table = [] ∧
    mkRow p ∉ (save_to_database st p f).table := by
  simp [save_to_database, hdb, hf, setup_database, hc, ht]

/-- Witness for C3 at a concrete state holding one persisted row. -/
theorem c3_witness :
    (save_to_database (initState true [mkRow goodPayload]) goodPayload
      ⟨some .connLost, true, true⟩).table = [] :=
  (c3_conn_lost_truncates (initState true [mkRow goodPayload]) goodPayload
    ⟨some .connLost, true, true⟩ rfl rfl rfl rfl).2.1

/-- C10: on a message whose payload is invalid JSON, or lacks any of
`user_id`, `energy_consumed_kwh`, `station_id`, `on_message` raises no
exception and leaves the whole processor state — buffer, every
`session_stats` field, and the `ev_charging_data` table — unchanged. -/
theorem c10_malformed_leaves_unchanged (st : ProcState) (raw : Option Payload) (f : DBFault)
    (h : raw = none ∨ ∃ p, raw = some p ∧
      (pget p "user_id" = none ∨ pget p "energy_consumed_kwh" = none ∨
        pget p "station_id" = none)) :
    on_message st raw f = st := by
  rcases h with rfl | ⟨p, rfl, hk⟩
  · rfl
  · rcases hk with hk | hk | hk
    · simp [on_message, hk]
    · cases h1 : pget p "user_id" with
      | none => simp [on_message, h1]
      | some u => simp [on_message, h1, hk]
    · cases h1 : pget p "user_id" with
      | none => simp [on_message, h1]
      | some u =>
        cases h2 : pget p "energy_consumed_kwh" with
        | none => simp [on_message, h1, h2]
        | some e => cases e <;> simp [on_message, h1, h2, hk]

/-- Witness for C10 at a payload missing `user_id`. -/
theorem c10_witness :
    on_message (initState true []) (some [("foo", JVal.s "x")]) noFault = initState true [] :=
  c10_malformed_leaves_unchanged _ _ _ (Or.inr ⟨_, rfl, Or.inl rfl⟩)

/-- Each loop iteration of the publisher calls `client.publish` at most
once, whatever the outcome: the published-message list grows by at most
the number of remaining events. -/
theorem simLoop_pubs_length_le (ds : List Row) (es : List IterEvent) :
    ∀ i acc, (simLoop ds es i acc).pubs.length ≤ acc.pubs.length + es.length := by
  induction es with
  | nil => intro i acc; simp [simLoop]
  | cons e es ih =>
    intro i acc
    cases e with
    | kbint => simp [simLoop]
    | err =>
      refine le_trans (ih (i + 1) _) ?_
      simp only [List.length_cons]
      omega
    | ok ridx ts now rc =>
      simp only [simLoop]
      cases hrow : ds.get? ridx with
      | none =>
        refine le_trans (ih (i + 1) _) ?_
        dsimp only
        simp only [List.length_cons]
        omega
      | some row =>
        refine le_trans (ih (i + 1) _) ?_
        dsimp only
        simp only [List.length_cons, List.length_append, List.length_nil]
        omega

set_option maxRecDepth 16384 in
/-- C5 (counterexample): the SQL text `get_user_daily_usage` hands to
`execute_query` is not one fixed constant — it differs between the
filtered and the unfiltered call. -/
theorem c5_counterexample :
    (get_user_daily_usage (some "U1")).1 ≠ (get_user_daily_usage none).1 := by
  decide

/-- C5 (amended): for each helper with an optional filter the SQL text is
one of two fixed constants, chosen only by whether the filter argument is
truthy — never by its value, which is passed solely as a `%s` parameter;
helpers with a `limit` argument use a single constant text with the limit
as a parameter. -/
theorem c5_amended (uid sid dis con : String) (lim : ℤ)
    (hu : uid ≠ "") (hs : sid ≠ "") (hd : dis ≠ "") (hc : con ≠ "") :
    (get_user_daily_usage (some uid)).1 = (get_user_daily_usage (some "A")).1 ∧
    (get_user_daily_usage (some uid)).2 = [uid] ∧
    (get_user_daily_usage (some "")).1 = (get_user_daily_usage none).1 ∧
    (get_station_daily_usage (some sid)).1 = (get_station_daily_usage (some "A")).1 ∧
    (get_station_daily_usage (some sid)).2 = [sid] ∧
    (get_stations_by_concelho (some dis)).1 = (get_stations_by_concelho (some "A")).1 ∧
    (get_stations_by_concelho (some dis)).2 = [dis] ∧
    (get_stations_by_freguesia (some con)).1 = (get_stations_by_freguesia (some "A")).1 ∧
    (get_stations_by_freguesia (some con)).2 = [con] ∧
    (get_energy_by_station lim).1 = (get_energy_by_station 50).1 ∧
    (get_energy_by_station lim).2 = [lim] := by
  have hu' : strTruthy (some uid) = true := by
    simp [strTruthy, String.isEmpty_iff, hu]
  have hs' : strTruthy (some sid) = true := by
    simp [strTruthy, String.isEmpty_iff, hs]
  have hd' : strTruthy (some dis) = true := by
    simp [strTruthy, String.isEmpty_iff, hd]
  have hc' : strTruthy (some con) = true := by
    simp [strTruthy, String.isEmpty_iff, hc]
  have hA : strTruthy (some "A") = true := by decide
  have hE : strTruthy (some "") = false := by decide
  have hN : strTruthy none = false := rfl
  refine ⟨?_, ?_, ?_, ?_, ?_, ?_, ?_, ?_, ?_, rfl, rfl⟩ <;>
    simp [get_user_daily_usage, get_station_daily_usage, get_stations_by_concelho,
      get_stations_by_freguesia, hu', hs', hd', hc', hA, hE, hN, Option.getD]

/-- Witness for C5 (amended) at concrete filter values. -/
theorem c5_witness :
    (get_user_daily_usage (some "U1")).2 = ["U1"] ∧
    (get_user_daily_usage (some "U1")).1 = (get_user_daily_usage (some "A")).1 :=
  ⟨(c5_amended "U1" "S" "D" "C" 7 (by decide) (by decide) (by decide) (by decide)).2.1,
   (c5_amended "U1" "S" "D" "C" 7 (by decide) (by decide) (by decide) (by decide)).1⟩

/-- C6 (counterexample): the error branch of `save_to_database` does
initiate a reconnection of its own — on a "MySQL Connection not available"
error it calls `setup_database`, which opens a fresh
`mysql.connector.connect` connection. -/
theorem c6_counterexample :
    (save_to_database (initState true []) goodPayload
      ⟨some .connLost, true, true⟩).connectAttempts =
        (initState true []).connectAttempts + 1 ∧
    (initState true []).connectAttempts = 0 := by
  decide

/-- C6 (amended): failed publishes and failed INSERTs are never
re-executed (a failing INSERT adds no row); `on_disconnect` initiates no
MQTT reconnection; each publisher iteration publishes at most once; but on
an error containing "MySQL Connection not available" the processor itself
re-establishes the MySQL connection via `setup_database`. -/
theorem c6_amended (st : ProcState) (p : Payload) (f : DBFault) (e : DBErr)
    (hf : f.fault = some e) :
    (save_to_database st p f).table.length ≤ st.table.length ∧
    (∀ r ∈ (save_to_database st p f).table, r ∈ st.table) ∧
    (e ≠ .connLost → save_to_database st p f = st) ∧
    ((save_to_database st p f).connectAttempts =
      if st.dbConn = true ∧ e = .connLost then st.connectAttempts + 1
      else st.connectAttempts) ∧
    (∀ rc : ℤ, on_disconnect st rc = st) ∧
    (∀ ds events, (simulate_realtime_data ds events).pubs.length ≤ events.length) := by
  refine ⟨?_, ?_, ?_, ?_, fun _ => rfl,
    fun ds events => by simpa using simLoop_pubs_length_le ds events 0 ⟨0, 0, 0, 0, []⟩⟩ <;>
  · cases hdb : st.dbConn <;> rcases e <;>
      rcases hcok : f.connectOk <;> rcases htok : f.truncateOk <;>
        simp [save_to_database, setup_database, hf, hdb, hcok, htok]

/-- Witness for C6 (amended): a non-connection error changes nothing. -/
theorem c6_witness :
    save_to_database (initState true []) goodPayload ⟨some .other, true, true⟩ =
      initState true [] :=
  (c6_amended (initState true []) goodPayload ⟨some .other, true, true⟩ .other rfl).2.2.1
    (by decide)

/-- C8: `execute_query` returns the complete fetched row list when cursor
creation and execution raise no connector error, and returns `None`
exactly when one of them raises; being a total function of the connection
environment, it propagates no connector exception. -/
theorem c8_execute_query_spec (conn : PyConnection) (q : String) (params : Option (List JVal)) :
    (conn.cursorErr = none → conn.execErr q (effParams params) = none →
      execute_query conn q params = some (conn.fetchall q (effParams params))) ∧
    (execute_query conn q params = none ↔
      conn.cursorErr ≠ none ∨ conn.execErr q (effParams params) ≠ none) := by
  cases hc : conn.cursorErr <;> cases he : conn.execErr q (effParams params) <;>
    simp [execute_query, hc, he]

/-- Witness for C8 on a connection where every step succeeds. -/
theorem c8_witness : execute_query okConn "SELECT 1" none = some [[JVal.n 1]] :=
  (c8_execute_query_spec okConn "SELECT 1" none).1 rfl rfl

/-- C9: `create_normalized_tables` issues CREATE TABLE IF NOT EXISTS
statements for exactly the four tables users, charging_stations, vehicles
and charging_sessions — vehicles with a foreign key to users and
charging_sessions with foreign keys to users, vehicles and
charging_stations — returning `True` iff all four statements and the
commit succeed and `False` when any raises a MySQL error. -/
theorem c9_create_normalized_tables (env : CreateEnv) :
    ((create_normalized_tables env).1 = true ↔
      env.cursorOk = true ∧ (∀ t ∈ tableList, env.execOk t = true) ∧
        env.commitOk = true) ∧
    (env.cursorOk = true → (∀ t ∈ tableList, env.execOk t = true) →
      (create_normalized_tables env).2 = tableList) ∧
    tableList.map TableDef.name =
      ["users", "charging_stations", "vehicles", "charging_sessions"] ∧
    (∀ t ∈ tableList, t.ifNotExists = true) ∧
    usersTable.foreignKeys = [] ∧
    chargingStationsTable.foreignKeys = [] ∧
    vehiclesTable.foreignKeys = [("user_id", "users")] ∧
    chargingSessionsTable.foreignKeys =
      [("user_id", "users"), ("vehicle_id", "vehicles"), ("station_id", "charging_stations")] := by
  refine ⟨?_, ?_, by decide, by decide, rfl, rfl, rfl, rfl⟩
  · cases hc : env.cursorOk <;>
      cases h1 : env.execOk usersTable <;>
      cases h2 : env.execOk chargingStationsTable <;>
      cases h3 : env.execOk vehiclesTable <;>
      cases h4 : env.execOk chargingSessionsTable <;>
      cases h5 : env.commitOk <;>
        simp [create_normalized_tables, runCreates, tableList, hc, h1, h2, h3, h4, h5]
  · intro hc hall
    have h1 := hall usersTable (by simp [tableList])
    have h2 := hall chargingStationsTable (by simp [tableList])
    have h3 := hall vehiclesTable (by simp [tableList])
    have h4 := hall chargingSessionsTable (by simp [tableList])
    simp [create_normalized_tables, runCreates, tableList, hc, h1, h2, h3, h4]

/-- Witness for C9 in the all-success environment. -/
theorem c9_witness :
    (create_normalized_tables allOkEnv).1 = true ∧
    (create_normalized_tables allOkEnv).2 = tableList := by
  have h := c9_create_normalized_tables allOkEnv
  exact ⟨h.1.mpr ⟨rfl, by decide, rfl⟩, h.2.1 rfl (by decide)⟩

/-- Counting behaviour of the publisher loop: absent `KeyboardInterrupt`,
every event enters the body once, exactly one of the two counters is
incremented per iteration, and the publish-and-sleep pair runs once per
event that reaches it. -/
theorem simLoop_counts (ds : List Row) (es : List IterEvent) :
    ∀ i acc, (∀ e ∈ es, e ≠ IterEvent.kbint) →
      (simLoop ds es i acc).iterations = acc.iterations + es.length ∧
      (simLoop ds es i acc).published + (simLoop ds es i acc).failed =
        acc.published + acc.failed + es.length ∧
      (simLoop ds es i acc).pubs.length = acc.pubs.length + countOk ds es ∧
      (simLoop ds es i acc).sleeps = acc.sleeps + countOk ds es := by
  induction es with
  | nil => intro i acc _; simp [simLoop, countOk]
  | cons e es ih =>
    intro i acc hk
    have hk' : ∀ x ∈ es, x ≠ IterEvent.kbint := fun x hx => hk x (by simp [hx])
    cases e with
    | kbint => exact absurd rfl (hk .kbint (by simp))
    | err =>
      obtain ⟨i1, i2, i3, i4⟩ := ih (i + 1)
        { acc with failed := acc.failed + 1, iterations := acc.iterations + 1 } hk'
      dsimp only at i1 i2 i3 i4
      refine ⟨?_, ?_, ?_, ?_⟩ <;>
        (simp only [simLoop, List.length_cons, countOk] ; omega)
    | ok ridx ts now rc =>
      cases hrow : ds.get? ridx with
      | none =>
        obtain ⟨i1, i2, i3, i4⟩ := ih (i + 1)
          { acc with failed := acc.failed + 1, iterations := acc.iterations + 1 } hk'
        dsimp only at i1 i2 i3 i4
        refine ⟨?_, ?_, ?_, ?_⟩ <;>
          (simp only [simLoop, List.length_cons, countOk, hrow, Option.isSome_none,
            Bool.false_eq_true, if_false] ; omega)
      | some row =>
        cases hpub : publish_charging_session (create_session_message row i ts now) rc with
        | true =>
          obtain ⟨i1, i2, i3, i4⟩ := ih (i + 1)
            { published := acc.published + 1, failed := acc.failed,
              iterations := acc.iterations + 1, sleeps := acc.sleeps + 1,
              pubs := acc.pubs ++ [create_session_message row i ts now] } hk'
          dsimp only at i1 i2 i3 i4
          simp only [List.length_append, List.length_cons, List.length_nil] at i3
          refine ⟨?_, ?_, ?_, ?_⟩ <;>
            (simp only [simLoop, List.length_cons, countOk, hrow, hpub, Option.isSome_some,
              if_true, if_false] ; omega)
        | false =>
          obtain ⟨i1, i2, i3, i4⟩ := ih (i + 1)
            { published := acc.published, failed := acc.failed + 1,
              iterations := acc.iterations + 1, sleeps := acc.sleeps + 1,
              pubs := acc.pubs ++ [create_session_message row i ts now] } hk'
          dsimp only at i1 i2 i3 i4
          simp only [List.length_append, List.length_cons, List.length_nil] at i3
          refine ⟨?_, ?_, ?_, ?_⟩ <;>
            (simp only [simLoop, List.length_cons, countOk, hrow, hpub, Option.isSome_some,
              Bool.false_eq_true, if_true, if_false] ; omega)

/-- C4 (counterexample): one iteration whose body raises a generic
exception (here: `dataset.sample` on an empty dataset, caught by the
`except Exception` branch) publishes no message and skips the sleep, yet
still counts among the `num_sessions` iterations. -/
theorem c4_counterexample :
    (∀ e ∈ [IterEvent.err], e ≠ IterEvent.kbint) ∧
    (simulate_realtime_data [] [IterEvent.err]).iterations = 1 ∧
    (simulate_realtime_data [] [IterEvent.err]).pubs = [] ∧
    (simulate_realtime_data [] [IterEvent.err]).sleeps = 0 ∧
    (simulate_realtime_data [] [IterEvent.err]).published +
      (simulate_realtime_data [] [IterEvent.err]).failed = 1 := by
  decide

/-- C4 (amended): absent a `KeyboardInterrupt`, `simulate_realtime_data`
performs exactly `num_sessions` iterations and on completion
`published_count + failed_count = num_sessions`; each iteration that does
not raise builds one message from a sampled dataset row, publishes it
and then sleeps once (`pubs`/`sleeps` count those iterations), while an
iteration that raises only increments `failed_count`. -/
theorem c4_amended (ds : List Row) (events : List IterEvent)
    (hk : ∀ e ∈ events, e ≠ IterEvent.kbint) (r : SimResult)
    (hr : r = simulate_realtime_data ds events) :
    r.iterations = events.length ∧
    r.published + r.failed = events.length ∧
    r.pubs.length = countOk ds events ∧
    r.sleeps = countOk ds events := by
  subst hr
  have h := simLoop_counts ds events 0 ⟨0, 0, 0, 0, []⟩ hk
  simpa [simulate_realtime_data] using h

/-- Witness for C4 (amended) on a one-event run. -/
theorem c4_witness :
    (simulate_realtime_data [[]] [IterEvent.ok 0 "t" 7 0]).iterations = 1 ∧
    (simulate_realtime_data [[]] [IterEvent.ok 0 "t" 7 0]).published +
      (simulate_realtime_data [[]] [IterEvent.ok 0 "t" 7 0]).failed = 1 ∧
    (simulate_realtime_data [[]] [IterEvent.ok 0 "t" 7 0]).pubs.length =
      countOk [[]] [IterEvent.ok 0 "t" 7 0] := by
  have h := c4_amended [[]] [IterEvent.ok 0 "t" 7 0] (by decide) _ rfl
  exact ⟨h.1, by simpa using h.2.1, h.2.2.1⟩

/-- Every published dict contains the ten required keys, and its charging
fields are the `parse_value` images of the row cells. -/
theorem create_session_message_keys (row : Row) (i : ℕ) (ts : String) (now : ℕ) :
    (∀ k ∈ requiredKeys, (pget (create_session_message row i ts now) k).isSome = true) ∧
    pget (create_session_message row i ts now) "energy_consumed_kwh" =
      some (.n (parse_value (rget row "Energy Consumed (kWh)") 0)) ∧
    pget (create_session_message row i ts now) "charging_cost_eur" =
      some (.n (parse_value (rget row "Charging Cost (EUR)") 0)) ∧
    pget (create_session_message row i ts now) "charging_duration_hours" =
      some (.n (parse_value (rget row "Charging Duration (hours)") 0)) := by
  refine ⟨?_, rfl, rfl, rfl⟩
  intro k hk
  fin_cases hk <;> rfl

/-- Every element of the published-message list of a run was built by
`create_session_message` from some row of the dataset. -/
theorem simLoop_pubs_shape (ds : List Row) (es : List IterEvent) :
    ∀ i acc,
      (∀ m ∈ acc.pubs, ∃ row j ts now, row ∈ ds ∧ m = create_session_message row j ts now) →
      ∀ m ∈ (simLoop ds es i acc).pubs,
        ∃ row j ts now, row ∈ ds ∧ m = create_session_message row j ts now := by
  induction es with
  | nil => intro i acc hacc; simpa [simLoop] using hacc
  | cons e es ih =>
    intro i acc hacc
    cases e with
    | kbint => simpa [simLoop] using hacc
    | err => exact ih (i + 1) _ hacc
    | ok ridx ts now rc =>
      cases hrow : ds.get? ridx with
      | none =>
        intro m hm
        simp only [simLoop, hrow] at hm
        refine ih (i + 1) _ ?_ m hm
        exact fun x hx => hacc x hx
      | some row =>
        intro m hm
        simp only [simLoop, hrow] at hm
        refine ih (i + 1) _ ?_ m hm
        intro x hx
        simp only at hx
        rcases List.mem_append.mp hx with hx | hx
        · exact hacc x hx
        · exact ⟨row, i, ts, now, List.get?_mem hrow, by simpa using hx⟩

/-- C7: every message the publisher hands to `client.publish` (whose JSON
encoding is the wire message) is one record built by
`create_session_message` from a dataset row: it contains the ten required
keys, and its numeric charging fields are produced by `parse_value`. -/
theorem c7_published_messages (ds : List Row) (events : List IterEvent) (m : Payload)
    (hm : m ∈ (simulate_realtime_data ds events).pubs) :
    ∃ row i ts now, row ∈ ds ∧ m = create_session_message row i ts now ∧
      (∀ k ∈ requiredKeys, (pget m k).isSome = true) ∧
      pget m "energy_consumed_kwh" =
        some (.n (parse_value (rget row "Energy Consumed (kWh)") 0)) ∧
      pget m "charging_cost_eur" =
        some (.n (parse_value (rget row "Charging Cost (EUR)") 0)) ∧
      pget m "charging_duration_hours" =
        some (.n (parse_value (rget row "Charging Duration (hours)") 0)) := by
  have h := simLoop_pubs_shape ds events 0 ⟨0, 0, 0, 0, []⟩ (by simp) m
    (by simpa [simulate_realtime_data] using hm)
  obtain ⟨row, j, ts, now, hrow, rfl⟩ := h
  obtain ⟨hkeys, he, hc, hd⟩ := create_session_message_keys row j ts now
  exact ⟨row, j, ts, now, hrow, rfl, hkeys, he, hc, hd⟩

/-- Witness for C7 on a one-message run over a one-row dataset. -/
theorem c7_witness :
    create_session_message [] 0 "t" 7 ∈
      (simulate_realtime_data [[]] [IterEvent.ok 0 "t" 7 0]).pubs ∧
    (∀ k ∈ requiredKeys, (pget (create_session_message [] 0 "t" 7) k).isSome = true) := by
  have hmem : create_session_message [] 0 "t" 7 ∈
      (simulate_realtime_data [[]] [IterEvent.ok 0 "t" 7 0]).pubs := by decide
  obtain ⟨row, i, ts, now, hrow, hm, hkeys, _⟩ :=
    c7_published_messages [[]] [IterEvent.ok 0 "t" 7 0] _ hmem
  exact ⟨hmem, hkeys⟩
